import Mathlib

/-!
Shallow embedding of the trust-sdk TypeScript client (`src/index.ts`).

TypeScript `number` values are modelled as `ℚ` (every score and amount the
SDK manipulates is compared only against integer thresholds, and `toString`
on an integer-valued rational renders exactly as the TS template literal
does).  An `async` function that may `throw` is modelled as a function into
`Except SdkError _`; the network is an explicit `Transport` argument that
records what `fetch` did (rejected outright, or produced a response with a
status code and an already-parsed JSON body).
-/

namespace TrustSDK

/-- The `riskLevel` / `risk_level` string union `"low" | "medium" | "high" | "unknown"`. -/
inductive RiskLevel
  | low
  | medium
  | high
  | unknown
deriving DecidableEq, Repr

/-- `TrustDimension` from `src/index.ts`. -/
structure TrustDimension where
  score : ℚ
  max : ℚ
deriving DecidableEq, Repr

/-- The `dimensions` record inside `TrustScore`. -/
structure TrustDimensions where
  identity : TrustDimension
  economic : TrustDimension
  social : TrustDimension
  behavioral : TrustDimension
deriving DecidableEq, Repr

/-- `TrustScore` from `src/index.ts`. -/
structure TrustScore where
  total : ℚ
  confidence : ℚ
  dimensions : TrustDimensions
  risk_flags : List String
  safe_to_transact : Bool
  risk_level : RiskLevel
  evidence_summary : String
deriving DecidableEq, Repr

/-- `Agent` from `src/index.ts`; optional fields become `Option`. -/
structure Agent where
  id : String
  name : String
  description : Option String
  contact : Option String
  trust_score : Option ℚ
  trust_tier : Option ℚ
  capabilities : Option (List String)
  lightning_pubkey : Option String
  nostr_npub : Option String
  x_handle : Option String
  website : Option String
  created_at : Option String
deriving DecidableEq, Repr

/-- The body returned by `lookup`: `{ agent, trust_score }`. -/
structure LookupResult where
  agent : Agent
  trust_score : TrustScore
deriving DecidableEq, Repr

/-- One entry of `RegisterResponse.next_steps`. -/
structure NextStep where
  action : String
  points : String
deriving DecidableEq, Repr

/-- `RegisterResponse` from `src/index.ts`. -/
structure RegisterResponse where
  agent_id : String
  trust_score : ℚ
  badge : String
  next_steps : List NextStep
deriving DecidableEq, Repr

/-- `ReviewResponse` from `src/index.ts`. -/
structure ReviewResponse where
  success : Bool
  review_id : Option String
  error : Option String
deriving DecidableEq, Repr

/-- Thrown errors.  `offline` is `TrustRegistryOfflineError`; `generic` is a
plain `new Error(message)`. -/
inductive SdkError
  | offline (message : String)
  | generic (message : String)
deriving DecidableEq, Repr

/-- A `fetch` response: its status code and the value `res.json()` parses to. -/
structure Response (α : Type) where
  status : Nat
  body : α
deriving DecidableEq, Repr

/-- `res.ok`: status in the inclusive range 200–299. -/
def Response.ok {α : Type} (r : Response α) : Bool :=
  Nat.ble 200 r.status && Nat.ble r.status 299

/-- What the underlying `fetch` call did: rejected (with an optional
`err.message`), or resolved to a response. -/
inductive Transport (α : Type)
  | netError (message : Option String)
  | response (res : Response α)
deriving DecidableEq, Repr

/-- JavaScript `x || d` for a string that may be `undefined`: the fallback is
used when the field is absent or the string is empty (falsy). -/
def jsOrString (x : Option String) (d : String) : String :=
  match x with
  | some s => if s.isEmpty then d else s
  | none => d

/-- `TrustClient.safeFetch`: a transport failure or a 502/503/504 status
becomes a `TrustRegistryOfflineError`; any other response is returned. -/
def safeFetch {α : Type} (t : Transport α) : Except SdkError (Response α) :=
  match t with
  | .netError message =>
      .error (.offline ("Registry unreachable: " ++ jsOrString message "network error"))
  | .response res =>
      if res.status == 502 || res.status == 503 || res.status == 504 then
        .error (.offline ("Registry returned " ++ toString res.status))
      else
        .ok res

/-- `TrustClient.lookup`: `null` (here `none`) on a non-ok status, the parsed
body otherwise; `safeFetch` errors propagate. -/
def lookup (t : Transport LookupResult) : Except SdkError (Option LookupResult) :=
  match safeFetch t with
  | .error e => .error e
  | .ok res => if res.ok then .ok (some res.body) else .ok none

/-- The JSON body of a non-ok write response as the error path reads it:
`error` is the `body.error` field, `none` when the body failed to parse
(the `.catch(() => ({}))` case) or carries no such field. -/
structure ErrorBody where
  error : Option String
deriving DecidableEq, Repr

/-- The wire body for `register`: the same JSON seen as the success payload
and as the error-message view used on the failure path. -/
structure RegisterWire where
  payload : RegisterResponse
  errorBody : ErrorBody
deriving DecidableEq, Repr

/-- The wire body for `review`. -/
structure ReviewWire where
  payload : ReviewResponse
  errorBody : ErrorBody
deriving DecidableEq, Repr

/-- `TrustClient.register`: on a non-ok, non-gateway status it throws
`new Error(body.error || "Registration failed (status)")`. -/
def register (t : Transport RegisterWire) : Except SdkError RegisterResponse :=
  match safeFetch t with
  | .error e => .error e
  | .ok res =>
      if res.ok then .ok res.body.payload
      else
        .error (.generic (jsOrString res.body.errorBody.error
          ("Registration failed (" ++ toString res.status ++ ")")))

/-- `TrustClient.review`: on a non-ok, non-gateway status it throws
`new Error(body.error || "Review failed (status)")`. -/
def review (t : Transport ReviewWire) : Except SdkError ReviewResponse :=
  match safeFetch t with
  | .error e => .error e
  | .ok res =>
      if res.ok then .ok res.body.payload
      else
        .error (.generic (jsOrString res.body.errorBody.error
          ("Review failed (" ++ toString res.status ++ ")")))

/-- The tier record `{ label, badge, safe }`. -/
structure Tier where
  label : String
  badge : String
  safe : Bool
deriving DecidableEq, Repr

/-- `TrustClient.getTier`. -/
def TrustClient.getTier (score : ℚ) : Tier :=
  if score ≥ 80 then { label := "Highly Trusted", badge := "🏆", safe := true }
  else if score ≥ 60 then { label := "Trusted", badge := "✅", safe := true }
  else if score ≥ 40 then { label := "Moderate", badge := "🔵", safe := false }
  else if score ≥ 20 then { label := "New/Limited", badge := "🟡", safe := false }
  else { label := "Unverified", badge := "⚪", safe := false }

/-- The recommendation record returned by `checkBeforeTransaction`. -/
structure Recommendation where
  proceed : Bool
  score : ℚ
  reason : String
  riskLevel : RiskLevel
deriving DecidableEq, Repr

/-- The inline threshold expression of `checkBeforeTransaction`:
`amountSats > 10000 ? 60 : amountSats > 1000 ? 40 : 20`. -/
def requiredScoreFor (amountSats : ℚ) : ℚ :=
  if amountSats > 10000 then 60 else if amountSats > 1000 then 40 else 20

/-- `checkBeforeTransaction` from `src/index.ts`. -/
def checkBeforeTransaction (t : Transport LookupResult) (amountSats : ℚ) :
    Except SdkError Recommendation :=
  match lookup t with
  | .error e => .error e
  | .ok none =>
      .ok { proceed := false
            score := 0
            reason := "Agent not found in registry. Unverified counterparty."
            riskLevel := .unknown }
  | .ok (some result) =>
      let score := result.trust_score.total
      let tier := TrustClient.getTier score
      let requiredScore := requiredScoreFor amountSats
      if score ≥ requiredScore then
        .ok { proceed := true
              score := score
              reason := tier.label ++ " agent with score " ++ toString score ++ "/100"
              riskLevel := if tier.safe then .low else .medium }
      else
        .ok { proceed := false
              score := score
              reason := "Score " ++ toString score ++ "/100 below threshold " ++
                toString requiredScore ++ " for " ++ toString amountSats ++ " sats transaction"
              riskLevel := if score < 20 then .high else .medium }

/-- The spec's tier ordering Unverified < New/Limited < Moderate < Trusted <
Highly Trusted, as a rank on tier records. -/
def tierRank (t : Tier) : Nat :=
  if t.label = "Highly Trusted" then 4
  else if t.label = "Trusted" then 3
  else if t.label = "Moderate" then 2
  else if t.label = "New/Limited" then 1
  else 0

/-- Statuses `safeFetch` treats as the registry being offline. -/
def gatewayStatus (s : Nat) : Prop :=
  s = 502 ∨ s = 503 ∨ s = 504

instance (s : Nat) : Decidable (gatewayStatus s) := by
  unfold gatewayStatus
  infer_instance

/-- A sample trust score with total 85, for concrete evaluations. -/
def sampleDimensions : TrustDimensions :=
  { identity := { score := 22, max := 25 }
    economic := { score := 21, max := 25 }
    social := { score := 21, max := 25 }
    behavioral := { score := 21, max := 25 } }

/-- A registered agent record used in concrete evaluations. -/
def sampleAgent : Agent :=
  { id := "agent-1"
    name := "SampleAgent"
    description := none
    contact := none
    trust_score := none
    trust_tier := none
    capabilities := none
    lightning_pubkey := none
    nostr_npub := none
    x_handle := none
    website := none
    created_at := none }

/-- A lookup body whose trust score totals 85. -/
def trustedBody : LookupResult :=
  { agent := sampleAgent
    trust_score :=
      { total := 85
        confidence := 9/10
        dimensions := sampleDimensions
        risk_flags := []
        safe_to_transact := true
        risk_level := .low
        evidence_summary := "established" } }

/-- A wire body for a failed registration whose JSON carries an error
message. -/
def sampleRegisterWire : RegisterWire :=
  { payload := { agent_id := "agent-1", trust_score := 5, badge := "⚪", next_steps := [] }
    errorBody := { error := some "name already taken" } }

/-- A wire body for a failed review whose JSON carries no error message. -/
def sampleReviewWire : ReviewWire :=
  { payload := { success := false, review_id := none, error := none }
    errorBody := { error := none } }

/-- A lookup body whose trust score totals 25. -/
def limitedBody : LookupResult :=
  { agent := sampleAgent
    trust_score :=
      { total := 25
        confidence := 1/2
        dimensions := sampleDimensions
        risk_flags := []
        safe_to_transact := false
        risk_level := .medium
        evidence_summary := "new agent" } }

end TrustSDK

namespace TrustSDK

-- Helper: a non-gateway response passes through safeFetch unchanged.
theorem safeFetch_nonGateway {α : Type} (r : Response α) (h : ¬ gatewayStatus r.status) :
    safeFetch (.response r) = .ok r := by
  simp only [gatewayStatus, not_or] at h
  unfold safeFetch
  simp [h.1, h.2.1, h.2.2]

/-- C1: when the lookup succeeds with total `score` and `score` meets the
amount's required threshold, `checkBeforeTransaction` proceeds with the
fetched score, risk level low exactly when the tier is safe (else medium),
and the templated tier reason string. -/
theorem checkBeforeTransaction_allow (t : Transport LookupResult) (amountSats : ℚ)
    (body : LookupResult) (hl : lookup t = .ok (some body))
    (hs : requiredScoreFor amountSats ≤ body.trust_score.total) :
    checkBeforeTransaction t amountSats = .ok
      { proceed := true
        score := body.trust_score.total
        reason := (TrustClient.getTier body.trust_score.total).label ++
          " agent with score " ++ toString body.trust_score.total ++ "/100"
        riskLevel := if (TrustClient.getTier body.trust_score.total).safe
          then .low else .medium } := by
  unfold checkBeforeTransaction
  rw [hl]
  simp [ge_iff_le, hs]

theorem checkBeforeTransaction_allow_witness :
    checkBeforeTransaction (.response ⟨200, trustedBody⟩) 500 = .ok
      { proceed := true
        score := trustedBody.trust_score.total
        reason := (TrustClient.getTier trustedBody.trust_score.total).label ++
          " agent with score " ++ toString trustedBody.trust_score.total ++ "/100"
        riskLevel := if (TrustClient.getTier trustedBody.trust_score.total).safe
          then .low else .medium } :=
  checkBeforeTransaction_allow _ 500 trustedBody rfl
    (by norm_num [trustedBody, requiredScoreFor])

/-- C2: when the lookup succeeds with total `score` below the amount's
required threshold, `checkBeforeTransaction` denies with the templated
below-threshold reason, risk level high when `score < 20` and medium
otherwise; in particular any denied agent with `score ≥ 20` is always
medium, independently of the tier classifier. -/
theorem checkBeforeTransaction_deny (t : Transport LookupResult) (amountSats : ℚ)
    (body : LookupResult) (hl : lookup t = .ok (some body))
    (hs : body.trust_score.total < requiredScoreFor amountSats) :
    (checkBeforeTransaction t amountSats = .ok
      { proceed := false
        score := body.trust_score.total
        reason := "Score " ++ toString body.trust_score.total ++ "/100 below threshold " ++
          toString (requiredScoreFor amountSats) ++ " for " ++ toString amountSats ++
          " sats transaction"
        riskLevel := if body.trust_score.total < 20 then .high else .medium }) ∧
    (20 ≤ body.trust_score.total → ∀ rec,
      checkBeforeTransaction t amountSats = .ok rec → rec.riskLevel = .medium) := by
  have hns : ¬ (requiredScoreFor amountSats ≤ body.trust_score.total) := not_le.mpr hs
  have heq : checkBeforeTransaction t amountSats = .ok
      { proceed := false
        score := body.trust_score.total
        reason := "Score " ++ toString body.trust_score.total ++ "/100 below threshold " ++
          toString (requiredScoreFor amountSats) ++ " for " ++ toString amountSats ++
          " sats transaction"
        riskLevel := if body.trust_score.total < 20 then .high else .medium } := by
    unfold checkBeforeTransaction
    rw [hl]
    simp [ge_iff_le, hns]
  refine ⟨heq, ?_⟩
  intro h20 rec hrec
  rw [heq] at hrec
  injection hrec with hrec
  subst hrec
  simp [not_lt.mpr h20]

theorem checkBeforeTransaction_deny_witness :
    (checkBeforeTransaction (.response ⟨200, limitedBody⟩) 5000 = .ok
      { proceed := false
        score := limitedBody.trust_score.total
        reason := "Score " ++ toString limitedBody.trust_score.total ++ "/100 below threshold " ++
          toString (requiredScoreFor 5000) ++ " for " ++ toString (5000 : ℚ) ++
          " sats transaction"
        riskLevel := if limitedBody.trust_score.total < 20 then .high else .medium }) ∧
    (20 ≤ limitedBody.trust_score.total → ∀ rec,
      checkBeforeTransaction (.response ⟨200, limitedBody⟩) 5000 = .ok rec →
      rec.riskLevel = .medium) :=
  checkBeforeTransaction_deny _ 5000 limitedBody rfl
    (by norm_num [limitedBody, requiredScoreFor])

/-- C3: the required score is a step function of the amount with
strictly-greater-than boundaries: above 10000 it is 60, above 1000 up to
10000 it is 40, up to 1000 it is 20; in particular 1000 ↦ 20, 1001 ↦ 40,
10000 ↦ 40, 10001 ↦ 60. -/
theorem requiredScoreFor_step (amountSats : ℚ) :
    (10000 < amountSats → requiredScoreFor amountSats = 60) ∧
    (1000 < amountSats ∧ amountSats ≤ 10000 → requiredScoreFor amountSats = 40) ∧
    (amountSats ≤ 1000 → requiredScoreFor amountSats = 20) ∧
    requiredScoreFor 1000 = 20 ∧ requiredScoreFor 1001 = 40 ∧
    requiredScoreFor 10000 = 40 ∧ requiredScoreFor 10001 = 60 := by
  refine ⟨fun h => ?_, fun h => ?_, fun h => ?_, ?_, ?_, ?_, ?_⟩ <;>
    simp only [requiredScoreFor] <;> split_ifs <;> first | rfl | linarith

theorem requiredScoreFor_step_witness : requiredScoreFor 500 = 20 :=
  (requiredScoreFor_step 500).2.2.1 (by norm_num)

end TrustSDK

namespace TrustSDK

/-- C4: `getTier` is total on every rational score and returns exactly the
five bands with inclusive lower bounds: 80 and above is Highly Trusted
(safe), 60–79 Trusted (safe), 40–59 Moderate (unsafe), 20–39 New/Limited
(unsafe), and anything below 20 (0 and below included) Unverified
(unsafe). -/
theorem getTier_bands (score : ℚ) :
    (80 ≤ score → TrustClient.getTier score = ⟨"Highly Trusted", "🏆", true⟩) ∧
    (60 ≤ score → score < 80 → TrustClient.getTier score = ⟨"Trusted", "✅", true⟩) ∧
    (40 ≤ score → score < 60 → TrustClient.getTier score = ⟨"Moderate", "🔵", false⟩) ∧
    (20 ≤ score → score < 40 → TrustClient.getTier score = ⟨"New/Limited", "🟡", false⟩) ∧
    (score < 20 → TrustClient.getTier score = ⟨"Unverified", "⚪", false⟩) := by
  refine ⟨fun h => ?_, fun h h2 => ?_, fun h h2 => ?_, fun h h2 => ?_, fun h => ?_⟩ <;>
    simp only [TrustClient.getTier] <;> split_ifs <;> first | rfl | linarith

theorem getTier_bands_witness :
    TrustClient.getTier 85 = ⟨"Highly Trusted", "🏆", true⟩ :=
  (getTier_bands 85).1 (by norm_num)

/-- C5: a transport failure, or a response with status 502, 503 or 504,
makes `lookup` (and hence `checkBeforeTransaction`) fail with the distinct
`TrustRegistryOfflineError`, never returning a recommendation record. -/
theorem offline_error_propagates (t : Transport LookupResult) (amountSats : ℚ)
    (h : (∃ m, t = .netError m) ∨ ∃ r, t = .response r ∧ gatewayStatus r.status) :
    ∃ msg, lookup t = .error (.offline msg) ∧
      checkBeforeTransaction t amountSats = .error (.offline msg) := by
  have hsf : ∃ msg, safeFetch t = .error (.offline msg) := by
    rcases h with ⟨m, rfl⟩ | ⟨r, rfl, hgw⟩
    · exact ⟨_, rfl⟩
    · refine ⟨"Registry returned " ++ toString r.status, ?_⟩
      unfold safeFetch
      rcases hgw with h5 | h5 | h5 <;> simp [h5]
  rcases hsf with ⟨msg, hmsg⟩
  have hlk : lookup t = .error (.offline msg) := by
    unfold lookup
    rw [hmsg]
  refine ⟨msg, hlk, ?_⟩
  unfold checkBeforeTransaction
  rw [hlk]

theorem offline_error_propagates_witness :
    ∃ msg, lookup (Transport.netError none) = .error (.offline msg) ∧
      checkBeforeTransaction (Transport.netError none) 100 = .error (.offline msg) :=
  offline_error_propagates (.netError none) 100 (Or.inl ⟨none, rfl⟩)

/-- C6: when the lookup reports not-found, `checkBeforeTransaction` returns
(without raising) exactly proceed false, score 0, risk level unknown, and
the fixed not-found reason string, for every amount. -/
theorem checkBeforeTransaction_notFound (t : Transport LookupResult) (amountSats : ℚ)
    (hl : lookup t = .ok none) :
    checkBeforeTransaction t amountSats = .ok
      { proceed := false
        score := 0
        reason := "Agent not found in registry. Unverified counterparty."
        riskLevel := .unknown } := by
  unfold checkBeforeTransaction
  rw [hl]

theorem checkBeforeTransaction_notFound_witness :
    checkBeforeTransaction (.response ⟨404, trustedBody⟩) 100 = .ok
      { proceed := false
        score := 0
        reason := "Agent not found in registry. Unverified counterparty."
        riskLevel := .unknown } :=
  checkBeforeTransaction_notFound (.response ⟨404, trustedBody⟩) 100 rfl

/-- C7: a write (`register` or `review`) whose response status is non-ok and
not a gateway code fails with a generic error carrying the server-supplied
message when a nonempty one is present, and otherwise the templated message
containing the status code. -/
theorem write_failure_errors (rr : Response RegisterWire) (rv : Response ReviewWire)
    (hgr : ¬ gatewayStatus rr.status) (hor : rr.ok = false)
    (hgv : ¬ gatewayStatus rv.status) (hov : rv.ok = false) :
    (∃ msg, register (.response rr) = .error (.generic msg) ∧
      (∀ m, rr.body.errorBody.error = some m → ¬ m.isEmpty → msg = m) ∧
      (rr.body.errorBody.error = none →
        msg = "Registration failed (" ++ toString rr.status ++ ")")) ∧
    (∃ msg, review (.response rv) = .error (.generic msg) ∧
      (∀ m, rv.body.errorBody.error = some m → ¬ m.isEmpty → msg = m) ∧
      (rv.body.errorBody.error = none →
        msg = "Review failed (" ++ toString rv.status ++ ")")) := by
  constructor
  · refine ⟨jsOrString rr.body.errorBody.error
      ("Registration failed (" ++ toString rr.status ++ ")"), ?_, ?_, ?_⟩
    · unfold register
      rw [safeFetch_nonGateway rr hgr]
      simp [hor]
    · intro m hm hne
      simp [jsOrString, hm, hne]
    · intro hn
      simp [jsOrString, hn]
  · refine ⟨jsOrString rv.body.errorBody.error
      ("Review failed (" ++ toString rv.status ++ ")"), ?_, ?_, ?_⟩
    · unfold review
      rw [safeFetch_nonGateway rv hgv]
      simp [hov]
    · intro m hm hne
      simp [jsOrString, hm, hne]
    · intro hn
      simp [jsOrString, hn]

theorem write_failure_errors_witness :
    (∃ msg, register (.response ⟨400, sampleRegisterWire⟩) = .error (.generic msg) ∧
      (∀ m, (Response.mk 400 sampleRegisterWire).body.errorBody.error = some m →
        ¬ m.isEmpty → msg = m) ∧
      ((Response.mk 400 sampleRegisterWire).body.errorBody.error = none →
        msg = "Registration failed (" ++ toString (Response.mk 400 sampleRegisterWire).status ++ ")")) ∧
    (∃ msg, review (.response ⟨500, sampleReviewWire⟩) = .error (.generic msg) ∧
      (∀ m, (Response.mk 500 sampleReviewWire).body.errorBody.error = some m →
        ¬ m.isEmpty → msg = m) ∧
      ((Response.mk 500 sampleReviewWire).body.errorBody.error = none →
        msg = "Review failed (" ++ toString (Response.mk 500 sampleReviewWire).status ++ ")")) :=
  write_failure_errors (Response.mk 400 sampleRegisterWire) (Response.mk 500 sampleReviewWire)
    (by decide) rfl (by decide) rfl

/-- C8: `getTier` is monotone: a lower score never gets a more trusted tier,
under Unverified < New/Limited < Moderate < Trusted < Highly Trusted. -/
theorem getTier_monotone (s1 s2 : ℚ) (h : s1 ≤ s2) :
    tierRank (TrustClient.getTier s1) ≤ tierRank (TrustClient.getTier s2) := by
  unfold TrustClient.getTier
  split_ifs <;> first | decide | linarith

theorem getTier_monotone_witness :
    tierRank (TrustClient.getTier 15) ≤ tierRank (TrustClient.getTier 85) :=
  getTier_monotone 15 85 (by norm_num)

/-- C9 counterexample: `getTier 79` is not the Moderate tier, refuting the
claim that classify(79) returns Moderate. -/
theorem getTier_79_not_moderate : (TrustClient.getTier 79).label ≠ "Moderate" := by
  decide

/-- C9 (amended): classify(79) and classify(79.999) both return the Trusted
tier, since 79 lies in the 60–79 band with inclusive lower bound 60. -/
theorem getTier_79_trusted :
    TrustClient.getTier 79 = ⟨"Trusted", "✅", true⟩ ∧
    TrustClient.getTier (79.999 : ℚ) = ⟨"Trusted", "✅", true⟩ :=
  ⟨rfl, by norm_num [TrustClient.getTier]⟩

/-- C10: every recommendation returned has risk level unknown exactly when
the lookup reported not-found (and score 0 there); otherwise the returned
score is the fetched total unchanged and the risk level is one of low,
medium, high. -/
theorem recommendation_invariant (t : Transport LookupResult) (amountSats : ℚ)
    (rec : Recommendation) (h : checkBeforeTransaction t amountSats = .ok rec) :
    (rec.riskLevel = .unknown ↔ lookup t = .ok none) ∧
    (lookup t = .ok none → rec.score = 0) ∧
    (∀ body, lookup t = .ok (some body) →
      rec.score = body.trust_score.total ∧
      (rec.riskLevel = .low ∨ rec.riskLevel = .medium ∨ rec.riskLevel = .high)) := by
  cases hl : lookup t with
  | error e =>
    have : checkBeforeTransaction t amountSats = .error e := by
      unfold checkBeforeTransaction
      rw [hl]
    rw [this] at h
    exact absurd h (by simp)
  | ok o =>
    cases o with
    | none =>
      have key : checkBeforeTransaction t amountSats = .ok
          { proceed := false
            score := 0
            reason := "Agent not found in registry. Unverified counterparty."
            riskLevel := .unknown } := by
        unfold checkBeforeTransaction
        rw [hl]
      rw [key] at h
      injection h with h
      subst h
      refine ⟨by simp, fun _ => rfl, ?_⟩
      intro body hb
      exact absurd hb (by simp)
    | some body =>
      by_cases hc : requiredScoreFor amountSats ≤ body.trust_score.total
      · have key := checkBeforeTransaction_allow t amountSats body hl hc
        rw [key] at h
        injection h with h
        subst h
        refine ⟨?_, fun hn => absurd hn (by simp), ?_⟩
        · constructor
          · intro hu
            exfalso
            revert hu
            split_ifs <;> simp
          · intro hn
            exact absurd hn (by simp)
        · intro b hb
          injection hb with hbb
          injection hbb with hbb
          subst hbb
          refine ⟨rfl, ?_⟩
          split_ifs <;> simp
      · have key := (checkBeforeTransaction_deny t amountSats body hl (not_le.mp hc)).1
        rw [key] at h
        injection h with h
        subst h
        refine ⟨?_, fun hn => absurd hn (by simp), ?_⟩
        · constructor
          · intro hu
            exfalso
            revert hu
            split_ifs <;> simp
          · intro hn
            exact absurd hn (by simp)
        · intro b hb
          injection hb with hbb
          injection hbb with hbb
          subst hbb
          refine ⟨rfl, ?_⟩
          split_ifs <;> simp

theorem recommendation_invariant_witness :
    (((Recommendation.mk false 0 "Agent not found in registry. Unverified counterparty."
        RiskLevel.unknown).riskLevel = RiskLevel.unknown ↔
      lookup (.response ⟨404, trustedBody⟩) = .ok none) ∧
    (lookup (.response ⟨404, trustedBody⟩) = .ok none →
      (Recommendation.mk false 0 "Agent not found in registry. Unverified counterparty."
        RiskLevel.unknown).score = 0) ∧
    (∀ body, lookup (.response ⟨404, trustedBody⟩) = .ok (some body) →
      (Recommendation.mk false 0 "Agent not found in registry. Unverified counterparty."
        RiskLevel.unknown).score = body.trust_score.total ∧
      ((Recommendation.mk false 0 "Agent not found in registry. Unverified counterparty."
        RiskLevel.unknown).riskLevel = RiskLevel.low ∨
       (Recommendation.mk false 0 "Agent not found in registry. Unverified counterparty."
        RiskLevel.unknown).riskLevel = RiskLevel.medium ∨
       (Recommendation.mk false 0 "Agent not found in registry. Unverified counterparty."
        RiskLevel.unknown).riskLevel = RiskLevel.high))) :=
  recommendation_invariant (.response ⟨404, trustedBody⟩) 100
    (Recommendation.mk false 0 "Agent not found in registry. Unverified counterparty."
      RiskLevel.unknown) rfl

end TrustSDK
